import Mathlib

/-!
Shallow embedding of the common_analysis_base repository: the AnalysisPlugin
base class with its capability mixins (analysis_plugin.py) and the command
line test client (command_line_client.py).  Python attribute lookup,
callability and exceptions are modelled explicitly; the wall clock read by
datetime.datetime.now is passed as an explicit parameter, and the observable
actions of the client (logging, invocation, pretty printing) are recorded in
an event trace.
-/

/-- Python values appearing in this code base: None, strings, integers and
datetime timestamps (the timestamp payload is the tick of the clock passed
to the report builder). -/
inductive PyValue
  | none
  | str (s : String)
  | int (n : Int)
  | time (t : Nat)
deriving DecidableEq

/-- Association list standing for a Python dict with string keys. -/
abbrev PyDict := List (String × PyValue)

/-- Python exceptions raised by the embedded code. -/
inductive PyErr
  | notImplementedError
  | attributeError
  | typeError
  | importError
deriving DecidableEq

/-- State of one analyze_* attribute slot of a plugin object: the attribute
may be missing, present but not callable, the inherited mixin placeholder
(which raises NotImplementedError), or an overriding implementation supplied
by a concrete plugin (arbitrary user code: it may return a report dict or
raise an exception). -/
inductive MethodImpl
  | absent
  | notCallable
  | placeholder
  | implemented (f : String → Except PyErr PyDict)

/-- A plugin object: the two version attributes set by AnalysisPlugin.__init__
plus the five analyze_* attribute slots that mixins or concrete subclasses
may populate. -/
structure Plugin where
  plugin_version : PyValue
  system_version : PyValue
  analyze_file : MethodImpl
  analyze_url : MethodImpl
  analyze_ip : MethodImpl
  analyze_domain : MethodImpl
  analyze_string : MethodImpl

/-- Python hasattr applied to an attribute slot. -/
def MethodImpl.hasattr : MethodImpl → Bool
  | .absent => false
  | _ => true

/-- Python callable applied to the value of an attribute slot; for a missing
attribute the source never asks (hasattr short-circuits), false here. -/
def MethodImpl.callable : MethodImpl → Bool
  | .placeholder => true
  | .implemented _ => true
  | _ => false

/-- Calling the attribute with one string argument: a missing attribute
raises AttributeError, a non-callable one TypeError, the un-overridden mixin
placeholder raises NotImplementedError, and an override runs the user code. -/
def MethodImpl.invoke : MethodImpl → String → Except PyErr PyDict
  | .absent, _ => Except.error PyErr.attributeError
  | .notCallable, _ => Except.error PyErr.typeError
  | .placeholder, _ => Except.error PyErr.notImplementedError
  | .implemented f, inp => f inp

/-- AnalysisPlugin.__init__: sets plugin_version and system_version (the
Python default for the latter is None); the base class itself carries no
analyze_* attribute. -/
def AnalysisPlugin.init (plugin_version system_version : PyValue) : Plugin :=
  { plugin_version := plugin_version
    system_version := system_version
    analyze_file := MethodImpl.absent
    analyze_url := MethodImpl.absent
    analyze_ip := MethodImpl.absent
    analyze_domain := MethodImpl.absent
    analyze_string := MethodImpl.absent }

/-- Placeholder method installed by FileAnalysisMixin. -/
def FileAnalysisMixin.analyze_file : MethodImpl := MethodImpl.placeholder

/-- Placeholder method installed by URLAnalysisMixin. -/
def URLAnalysisMixin.analyze_url : MethodImpl := MethodImpl.placeholder

/-- Placeholder method installed by IPAnalysisMixin. -/
def IPAnalysisMixin.analyze_ip : MethodImpl := MethodImpl.placeholder

/-- Placeholder method installed by StringAnalysisMixin. -/
def StringAnalysisMixin.analyze_string : MethodImpl := MethodImpl.placeholder

/-- Placeholder method installed by DomainAnalysisMixin. -/
def DomainAnalysisMixin.analyze_domain : MethodImpl := MethodImpl.placeholder

/-- Instance of the convenience class AnalysisPluginFile: the base attributes
plus the un-overridden file placeholder inherited from FileAnalysisMixin. -/
def AnalysisPluginFile.init (pv sv : PyValue) : Plugin :=
  { AnalysisPlugin.init pv sv with analyze_file := FileAnalysisMixin.analyze_file }

/-- Instance of the convenience class AnalysisPluginURL. -/
def AnalysisPluginURL.init (pv sv : PyValue) : Plugin :=
  { AnalysisPlugin.init pv sv with analyze_url := URLAnalysisMixin.analyze_url }

/-- Instance of the convenience class AnalysisPluginIP. -/
def AnalysisPluginIP.init (pv sv : PyValue) : Plugin :=
  { AnalysisPlugin.init pv sv with analyze_ip := IPAnalysisMixin.analyze_ip }

/-- Instance of the convenience class AnalysisPluginDomain. -/
def AnalysisPluginDomain.init (pv sv : PyValue) : Plugin :=
  { AnalysisPlugin.init pv sv with analyze_domain := DomainAnalysisMixin.analyze_domain }

/-- Instance of the convenience class AnalysisPluginString. -/
def AnalysisPluginString.init (pv sv : PyValue) : Plugin :=
  { AnalysisPlugin.init pv sv with analyze_string := StringAnalysisMixin.analyze_string }

/-- AnalysisPlugin.can_analyze_file, in state passing form: the Bool result
of the hasattr-and-callable test together with the object state after the
call. -/
def can_analyze_file (self : Plugin) : Bool × Plugin :=
  (MethodImpl.hasattr self.analyze_file && MethodImpl.callable self.analyze_file, self)

/-- AnalysisPlugin.can_analyze_url, in state passing form. -/
def can_analyze_url (self : Plugin) : Bool × Plugin :=
  (MethodImpl.hasattr self.analyze_url && MethodImpl.callable self.analyze_url, self)

/-- AnalysisPlugin.can_analyze_ip, in state passing form. -/
def can_analyze_ip (self : Plugin) : Bool × Plugin :=
  (MethodImpl.hasattr self.analyze_ip && MethodImpl.callable self.analyze_ip, self)

/-- AnalysisPlugin.can_analyze_domain, in state passing form. -/
def can_analyze_domain (self : Plugin) : Bool × Plugin :=
  (MethodImpl.hasattr self.analyze_domain && MethodImpl.callable self.analyze_domain, self)

/-- AnalysisPlugin.prepare_analysis_report_dictionary, with the current time
of datetime.datetime.now passed as the parameter now; the two branches mirror
the is-not-None test of the source, which appends the system_version key to
the two base keys. -/
def prepare_analysis_report_dictionary (self : Plugin) (now : Nat) : PyDict × Plugin :=
  match self.system_version with
  | PyValue.none =>
      ([(("plugin_version"), self.plugin_version), (("analysis_date"), PyValue.time now)], self)
  | v =>
      ([(("plugin_version"), self.plugin_version), (("analysis_date"), PyValue.time now),
        (("system_version"), v)], self)

/-- The five capabilities named by the specification. -/
inductive Capability
  | file
  | url
  | ip
  | domain
  | string
deriving DecidableEq

/-- Python getattr of the analyze_* attribute slot named by a capability. -/
def Plugin.getMethod (p : Plugin) : Capability → MethodImpl
  | .file => p.analyze_file
  | .url => p.analyze_url
  | .ip => p.analyze_ip
  | .domain => p.analyze_domain
  | .string => p.analyze_string

/-- Dispatcher for the supports(P, C) query of the specification: calling the
can_analyze_* method that corresponds to the capability.  AnalysisPlugin
defines no can_analyze_string method, so for the String capability there is
no query to call and the result is none. -/
def capabilityQuery (p : Plugin) : Capability → Option (Bool × Plugin)
  | .file => some (can_analyze_file p)
  | .url => some (can_analyze_url p)
  | .ip => some (can_analyze_ip p)
  | .domain => some (can_analyze_domain p)
  | .string => none

/-- Specification-side predicate: the plugin exposes a callable attribute
with the analyze_* name of capability C. -/
def exposesCallable (p : Plugin) (c : Capability) : Bool :=
  MethodImpl.callable (Plugin.getMethod p c)

/-- Observable actions of the command line client, tagged with the capability
whose handling produced them. -/
inductive Event
  | checkedCan (c : Capability) (result : Bool)
  | logInfo (c : Capability) (inp : String)
  | invoked (c : Capability) (inp : String)
  | logWarnSkip (c : Capability)
  | printedDict (c : Capability) (d : PyDict)
  | printedNone (c : Capability)
deriving DecidableEq

/-- Capability tag of a client event. -/
def evCap : Event → Capability
  | .checkedCan c _ => c
  | .logInfo c _ => c
  | .invoked c _ => c
  | .logWarnSkip c => c
  | .printedDict c _ => c
  | .printedNone c => c

/-- Shared body of the client helpers analyze_file, analyze_url, analyze_ip
and analyze_domain of command_line_client.py: check the can_analyze query,
then either log and call the analyze method (an exception it raises
propagates to the caller) or log a skip warning and return None. -/
def analyzeWithQuery (can : Bool) (m : MethodImpl) (c : Capability) (inp : String) :
    List Event × Except PyErr (Option PyDict) :=
  if can then
    match MethodImpl.invoke m inp with
    | Except.ok d =>
        ([Event.checkedCan c true, Event.logInfo c inp, Event.invoked c inp],
          Except.ok (some d))
    | Except.error e =>
        ([Event.checkedCan c true, Event.logInfo c inp, Event.invoked c inp],
          Except.error e)
  else
    ([Event.checkedCan c false, Event.logWarnSkip c], Except.ok none)

/-- Client helper analyze_file (the leading underscore of the source name is
dropped and the py prefix added). -/
def py_analyze_file (analyzer : Plugin) (file_path : String) :
    List Event × Except PyErr (Option PyDict) :=
  analyzeWithQuery (can_analyze_file analyzer).fst analyzer.analyze_file Capability.file file_path

/-- Client helper analyze_url. -/
def py_analyze_url (analyzer : Plugin) (url : String) :
    List Event × Except PyErr (Option PyDict) :=
  analyzeWithQuery (can_analyze_url analyzer).fst analyzer.analyze_url Capability.url url

/-- Client helper analyze_ip. -/
def py_analyze_ip (analyzer : Plugin) (ip : String) :
    List Event × Except PyErr (Option PyDict) :=
  analyzeWithQuery (can_analyze_ip analyzer).fst analyzer.analyze_ip Capability.ip ip

/-- Client helper analyze_domain. -/
def py_analyze_domain (analyzer : Plugin) (domain : String) :
    List Event × Except PyErr (Option PyDict) :=
  analyzeWithQuery (can_analyze_domain analyzer).fst analyzer.analyze_domain Capability.domain domain

/-- Pretty printing of the value returned by a client helper: a report dict,
or the value None returned by the skip branch. -/
def printEv (c : Capability) (r : Option PyDict) : Event :=
  match r with
  | some d => Event.printedDict c d
  | none => Event.printedNone c

/-- Completion of one input block of the client driver: on a normal return
the result is pretty printed; an uncaught exception aborts the driver. -/
def procResult (r : List Event × Except PyErr (Option PyDict)) (c : Capability) :
    List Event × Option PyErr :=
  match r with
  | (evs, Except.ok d) => (evs ++ [printEv c d], none)
  | (evs, Except.error e) => (evs, some e)

/-- One optional input block of the client driver: the source guards each
block with a truthiness test of the argument value, so both None and the
empty string are skipped without any observable action. -/
def runInput (p : Plugin) (inp : Option String)
    (f : Plugin → String → List Event × Except PyErr (Option PyDict))
    (c : Capability) : List Event × Option PyErr :=
  match inp with
  | none => ([], none)
  | some s => if s.isEmpty then ([], none) else procResult (f p s) c

/-- Parsed command line arguments that the driver consumes. -/
structure Args where
  analysis_module : Option String
  file : Option String
  url : Option String
  ip : Option String
  domain : Option String

/-- The client driver analyze of command_line_client.py: four optional input
blocks in the fixed textual order file, url, ip, domain; an exception raised
inside one block aborts all remaining blocks. -/
def py_analyze (args : Args) (analyzer : Plugin) : List Event × Option PyErr :=
  match runInput analyzer args.file py_analyze_file Capability.file with
  | (evs1, some e) => (evs1, some e)
  | (evs1, none) =>
    match runInput analyzer args.url py_analyze_url Capability.url with
    | (evs2, some e) => (evs1 ++ evs2, some e)
    | (evs2, none) =>
      match runInput analyzer args.ip py_analyze_ip Capability.ip with
      | (evs3, some e) => (evs1 ++ evs2 ++ evs3, some e)
      | (evs3, none) =>
        match runInput analyzer args.domain py_analyze_domain Capability.domain with
        | (evs4, r4) => (evs1 ++ evs2 ++ evs3 ++ evs4, r4)

/-- Outcome of resolving the analysis module named on the command line:
importlib may fail, the module may lack the analysis_class attribute, or a
class is found whose instantiation yields a plugin object. -/
inductive LoadOutcome
  | importError
  | noAnalysisClass
  | loaded (p : Plugin)

/-- Result of the client function load_analysis_class_from_module: terminate
with exit code one when no module was named, re-raise a resolution failure
after logging it, or hand back the resolved class. -/
inductive LoadResult
  | exitNoModule
  | raised (e : PyErr)
  | ok (p : Plugin)

/-- Client function load_analysis_class_from_module: the check of the source
is an is-None test on the argument value, and both resolution failures are
re-raised after logging. -/
def py_load_analysis_class (env : String → LoadOutcome) (args : Args) : LoadResult :=
  match args.analysis_module with
  | none => LoadResult.exitNoModule
  | some name =>
    match env name with
    | LoadOutcome.importError => LoadResult.raised PyErr.importError
    | LoadOutcome.noAnalysisClass => LoadResult.raised PyErr.attributeError
    | LoadOutcome.loaded p => LoadResult.ok p

/-- Termination of the client process: an explicit exit with a code, or an
uncaught exception (which makes the interpreter terminate non-zero). -/
inductive MainOutcome
  | exitCode (n : Nat)
  | uncaught (e : PyErr)
deriving DecidableEq

/-- Client function main: load the class, run the driver, exit zero; exit one
happens inside loading when no module is named, and every uncaught exception
propagates out of the process. -/
def py_main (env : String → LoadOutcome) (args : Args) : List Event × MainOutcome :=
  match py_load_analysis_class env args with
  | LoadResult.exitNoModule => ([], MainOutcome.exitCode 1)
  | LoadResult.raised e => ([], MainOutcome.uncaught e)
  | LoadResult.ok p =>
    match py_analyze args p with
    | (evs, none) => (evs, MainOutcome.exitCode 0)
    | (evs, some e) => (evs, MainOutcome.uncaught e)

/-- Flag strings registered by the argument parser of the client. -/
def argparserFlags : List String :=
  ["-V", "--version", "-l", "--log_file", "-L", "--log_level",
   "-a", "--analysis-module", "-f", "--file", "-u", "--url",
   "-i", "--ip", "-d", "--domain"]

/-- Concrete instance of AnalysisPluginFile with plugin version 1.0 and no
system version. -/
def pluginFileDemo : Plugin := AnalysisPluginFile.init (PyValue.str ("1.0")) PyValue.none

/-- Concrete instance of AnalysisPluginString with plugin version 1.0. -/
def pluginStringDemo : Plugin := AnalysisPluginString.init (PyValue.str ("1.0")) PyValue.none

/-- Concrete instance of the bare AnalysisPlugin base class. -/
def pluginBaseDemo : Plugin := AnalysisPlugin.init (PyValue.str ("1.0")) PyValue.none

/-- Command line with a module name and a non-empty file argument. -/
def argsFileDemo : Args :=
  { analysis_module := some ("m"), file := some ("x"), url := none, ip := none, domain := none }

/-- Command line whose file argument is provided but is the empty string. -/
def argsEmptyFileDemo : Args :=
  { analysis_module := some ("m"), file := some (""), url := none, ip := none, domain := none }

/-- Contract of one non-empty input block of the client: the capability query
is checked first; if it is false the block warns, does not invoke and prints
None; if it is true the block invokes the analyze method, prints the report
when the call returns normally, and propagates the exception unprinted
otherwise. -/
def handlesInput (c : Capability) (can : Bool) (m : MethodImpl) (s : String)
    (out : List Event × Option PyErr) : Prop :=
  out.fst.head? = some (Event.checkedCan c can)
  ∧ (can = false →
      out = ([Event.checkedCan c false, Event.logWarnSkip c, printEv c none], none)
      ∧ ∀ t, Event.invoked c t ∉ out.fst)
  ∧ (can = true →
      Event.invoked c s ∈ out.fst
      ∧ (∀ d, MethodImpl.invoke m s = Except.ok d →
          out.fst.getLast? = some (printEv c (some d)) ∧ out.snd = none)
      ∧ (∀ e, MethodImpl.invoke m s = Except.error e →
          out.snd = some e ∧ (∀ d, Event.printedDict c d ∉ out.fst)
          ∧ Event.printedNone c ∉ out.fst))

/-! Helper lemmas shared by several claim theorems. -/

/-- Every event emitted by the shared helper body carries its capability. -/
lemma analyzeWithQuery_tags (can : Bool) (m : MethodImpl) (c : Capability) (inp : String) :
    ∀ e ∈ (analyzeWithQuery can m c inp).fst, evCap e = c := by
  intro e he
  unfold analyzeWithQuery at he
  cases can with
  | false =>
    simp at he
    rcases he with h | h <;> subst h <;> rfl
  | true =>
    cases hmi : MethodImpl.invoke m inp with
    | ok d =>
      rw [hmi] at he; simp at he
      rcases he with h | h | h <;> subst h <;> rfl
    | error e2 =>
      rw [hmi] at he; simp at he
      rcases he with h | h | h <;> subst h <;> rfl

/-- The print event carries its capability. -/
lemma printEv_tag (c : Capability) (r : Option PyDict) : evCap (printEv c r) = c := by
  cases r <;> rfl

/-- Every event emitted by one input block carries the capability of the
block, provided the helper passed in does. -/
lemma runInput_tags (p : Plugin) (inp : Option String)
    (f : Plugin → String → List Event × Except PyErr (Option PyDict)) (c : Capability)
    (hf : ∀ s e, e ∈ (f p s).fst → evCap e = c) :
    ∀ e ∈ (runInput p inp f c).fst, evCap e = c := by
  intro e he
  cases inp with
  | none => simp [runInput] at he
  | some s =>
    simp only [runInput] at he
    by_cases hs : s.isEmpty = true
    · rw [if_pos hs] at he; simp at he
    · rw [if_neg hs] at he
      unfold procResult at he
      rcases hfp : f p s with ⟨evs, res⟩
      rw [hfp] at he
      cases res with
      | ok d =>
        simp at he
        rcases he with h | h
        · exact hf s e (by rw [hfp]; exact h)
        · subst h; exact printEv_tag c d
      | error e2 =>
        simp at he
        exact hf s e (by rw [hfp]; exact he)

/-- Tag lemma for the file helper. -/
lemma py_analyze_file_tags (p : Plugin) (s : String) :
    ∀ e ∈ (py_analyze_file p s).fst, evCap e = Capability.file :=
  analyzeWithQuery_tags _ _ _ _

/-- Tag lemma for the url helper. -/
lemma py_analyze_url_tags (p : Plugin) (s : String) :
    ∀ e ∈ (py_analyze_url p s).fst, evCap e = Capability.url :=
  analyzeWithQuery_tags _ _ _ _

/-- Tag lemma for the ip helper. -/
lemma py_analyze_ip_tags (p : Plugin) (s : String) :
    ∀ e ∈ (py_analyze_ip p s).fst, evCap e = Capability.ip :=
  analyzeWithQuery_tags _ _ _ _

/-- Tag lemma for the domain helper. -/
lemma py_analyze_domain_tags (p : Plugin) (s : String) :
    ∀ e ∈ (py_analyze_domain p s).fst, evCap e = Capability.domain :=
  analyzeWithQuery_tags _ _ _ _

/-- The trace of the driver decomposes into four blocks, in the order file,
url, ip, domain, each block tagged with its capability. -/
lemma py_analyze_blocks (args : Args) (p : Plugin) :
    ∃ l1 l2 l3 l4, (py_analyze args p).fst = l1 ++ l2 ++ l3 ++ l4
      ∧ (∀ e ∈ l1, evCap e = Capability.file) ∧ (∀ e ∈ l2, evCap e = Capability.url)
      ∧ (∀ e ∈ l3, evCap e = Capability.ip) ∧ (∀ e ∈ l4, evCap e = Capability.domain) := by
  have t1 := runInput_tags p args.file py_analyze_file Capability.file
    (fun s => py_analyze_file_tags p s)
  have t2 := runInput_tags p args.url py_analyze_url Capability.url
    (fun s => py_analyze_url_tags p s)
  have t3 := runInput_tags p args.ip py_analyze_ip Capability.ip
    (fun s => py_analyze_ip_tags p s)
  have t4 := runInput_tags p args.domain py_analyze_domain Capability.domain
    (fun s => py_analyze_domain_tags p s)
  unfold py_analyze
  rcases h1 : runInput p args.file py_analyze_file Capability.file with ⟨evs1, r1⟩
  rw [h1] at t1
  cases r1 with
  | some e =>
    exact ⟨evs1, [], [], [], by simp, t1, by simp, by simp, by simp⟩
  | none =>
    rcases h2 : runInput p args.url py_analyze_url Capability.url with ⟨evs2, r2⟩
    rw [h2] at t2
    cases r2 with
    | some e =>
      exact ⟨evs1, evs2, [], [], by simp, t1, t2, by simp, by simp⟩
    | none =>
      rcases h3 : runInput p args.ip py_analyze_ip Capability.ip with ⟨evs3, r3⟩
      rw [h3] at t3
      cases r3 with
      | some e =>
        exact ⟨evs1, evs2, evs3, [], by simp, t1, t2, t3, by simp⟩
      | none =>
        rcases h4 : runInput p args.domain py_analyze_domain Capability.domain with ⟨evs4, r4⟩
        rw [h4] at t4
        exact ⟨evs1, evs2, evs3, evs4, by simp, t1, t2, t3, t4⟩

/-- A non-empty provided input runs its block on the helper result. -/
lemma runInput_some (p : Plugin) (s : String)
    (f : Plugin → String → List Event × Except PyErr (Option PyDict)) (c : Capability)
    (hs : s.isEmpty = false) :
    runInput p (some s) f c = procResult (f p s) c := by
  simp only [runInput]
  rw [hs]
  simp

/-- The hasattr-and-callable test of the source collapses to callability of
the slot, since a missing attribute is never callable. -/
lemma hasattr_and_callable (m : MethodImpl) :
    (MethodImpl.hasattr m && MethodImpl.callable m) = MethodImpl.callable m := by
  cases m <;> rfl

/-- Core of the per-input client contract, for the shared helper body. -/
lemma handles_core (can : Bool) (m : MethodImpl) (c : Capability) (s : String) :
    handlesInput c can m s (procResult (analyzeWithQuery can m c s) c) := by
  cases can with
  | false =>
    refine ⟨rfl, fun _ => ⟨rfl, ?_⟩, fun h => absurd h (by simp)⟩
    intro t
    simp [analyzeWithQuery, procResult, printEv, evCap]
  | true =>
    cases hmi : MethodImpl.invoke m s with
    | ok d =>
      refine ⟨?_, fun h => absurd h (by simp), fun _ => ⟨?_, ?_, ?_⟩⟩
      · simp [analyzeWithQuery, procResult, hmi]
      · simp [analyzeWithQuery, procResult, hmi]
      · intro d2 h2
        rw [hmi] at h2
        injection h2 with h3
        subst h3
        constructor
        · simp [analyzeWithQuery, procResult, hmi]
        · simp [analyzeWithQuery, procResult, hmi]
      · intro e2 h2
        rw [hmi] at h2
        exact Except.noConfusion h2
    | error e =>
      refine ⟨?_, fun h => absurd h (by simp), fun _ => ⟨?_, ?_, ?_⟩⟩
      · simp [analyzeWithQuery, procResult, hmi]
      · simp [analyzeWithQuery, procResult, hmi]
      · intro d2 h2
        rw [hmi] at h2
        exact Except.noConfusion h2
      · intro e2 h2
        rw [hmi] at h2
        injection h2 with h3
        subst h3
        refine ⟨by simp [analyzeWithQuery, procResult, hmi], ?_, ?_⟩
        · intro d
          simp [analyzeWithQuery, procResult, hmi]
        · simp [analyzeWithQuery, procResult, hmi]

/-! Claim theorems. -/

/-- C1 (counterexample).  The claim ranges over all five capabilities, String
included: at the String capability it asserts that the String counterpart of
the can_analyze_* queries returns true for a plugin exposing a callable
analyze_string attribute.  For a concrete AnalysisPluginString instance the
callable attribute is there, yet no String capability query exists on the
class, so no query returns true. -/
theorem string_counterpart_missing_cx :
    exposesCallable pluginStringDemo Capability.string = true
    ∧ capabilityQuery pluginStringDemo Capability.string = none :=
  ⟨rfl, rfl⟩

/-- C1 (amended).  For every plugin instance and each of the four capability
queries that exist (File, URL, IP, Domain), the query returns true if and
only if the instance exposes a callable attribute with the corresponding
analyze_* name, regardless of the declared class of the instance; the base
class defines no can_analyze_string, so the String capability has no query. -/
theorem can_analyze_iff_callable_attr (p : Plugin) :
    ((can_analyze_file p).fst = exposesCallable p Capability.file)
    ∧ ((can_analyze_url p).fst = exposesCallable p Capability.url)
    ∧ ((can_analyze_ip p).fst = exposesCallable p Capability.ip)
    ∧ ((can_analyze_domain p).fst = exposesCallable p Capability.domain)
    ∧ capabilityQuery p Capability.string = none :=
  ⟨hasattr_and_callable p.analyze_file, hasattr_and_callable p.analyze_url,
    hasattr_and_callable p.analyze_ip, hasattr_and_callable p.analyze_domain, rfl⟩

/-- C2 (counterexample).  The claim says that invoking a capability operation
the plugin does not provide fails with a NotImplemented signal; for the
AnalysisPluginFile instance, which lacks analyze_ip entirely, the direct
invocation raises AttributeError, not NotImplementedError. -/
theorem absent_operation_not_notimplemented_cx :
    MethodImpl.invoke pluginFileDemo.analyze_ip ("1.2.3.4")
        = Except.error PyErr.attributeError
    ∧ MethodImpl.invoke pluginFileDemo.analyze_ip ("1.2.3.4")
        ≠ Except.error PyErr.notImplementedError := by
  refine ⟨rfl, ?_⟩
  intro h
  have h2 : PyErr.attributeError = PyErr.notImplementedError := by injection h
  exact PyErr.noConfusion h2

/-- C2 (amended).  Invoking a capability operation that the plugin carries
only as an un-overridden mixin placeholder fails with NotImplementedError;
for a plugin whose attribute slot is entirely absent, every capability query
that exists returns false for it and direct invocation fails with
AttributeError (a failure, but not the NotImplemented signal). -/
theorem unsupported_invocation_behavior (p : Plugin) (c : Capability) (s : String) :
    (Plugin.getMethod p c = MethodImpl.placeholder →
        MethodImpl.invoke (Plugin.getMethod p c) s = Except.error PyErr.notImplementedError)
    ∧ (Plugin.getMethod p c = MethodImpl.absent →
        MethodImpl.invoke (Plugin.getMethod p c) s = Except.error PyErr.attributeError
        ∧ ∀ b q, capabilityQuery p c = some (b, q) → b = false) := by
  constructor
  · intro h; rw [h]; rfl
  · intro h
    refine ⟨by rw [h]; rfl, ?_⟩
    intro b q hq
    cases c with
    | file =>
      have hm : p.analyze_file = MethodImpl.absent := h
      simp [capabilityQuery, can_analyze_file, hm, MethodImpl.hasattr] at hq
      exact hq.1
    | url =>
      have hm : p.analyze_url = MethodImpl.absent := h
      simp [capabilityQuery, can_analyze_url, hm, MethodImpl.hasattr] at hq
      exact hq.1
    | ip =>
      have hm : p.analyze_ip = MethodImpl.absent := h
      simp [capabilityQuery, can_analyze_ip, hm, MethodImpl.hasattr] at hq
      exact hq.1
    | domain =>
      have hm : p.analyze_domain = MethodImpl.absent := h
      simp [capabilityQuery, can_analyze_domain, hm, MethodImpl.hasattr] at hq
      exact hq.1
    | string => exact Option.noConfusion hq

/-- C2 (witness): the amended theorem applied to the AnalysisPluginFile
instance, whose analyze_ip slot is absent. -/
theorem unsupported_invocation_behavior_witness :
    MethodImpl.invoke (Plugin.getMethod pluginFileDemo Capability.ip) ("1.2.3.4")
      = Except.error PyErr.attributeError :=
  ((unsupported_invocation_behavior pluginFileDemo Capability.ip ("1.2.3.4")).2 rfl).1

/-- C3 (confirmed).  The report dictionary of a plugin constructed by
AnalysisPlugin.__init__ always contains the plugin_version key with the
stored version and the analysis_date key with the current time, contains the
system_version key exactly when a system version other than None was bound
at construction, and contains no other key; with no system version the
dictionary holds exactly the two base keys. -/
theorem report_envelope_keys (pv sv : PyValue) (now : Nat) :
    List.lookup ("plugin_version")
        (prepare_analysis_report_dictionary (AnalysisPlugin.init pv sv) now).fst = some pv
    ∧ List.lookup ("analysis_date")
        (prepare_analysis_report_dictionary (AnalysisPlugin.init pv sv) now).fst
        = some (PyValue.time now)
    ∧ ((List.lookup ("system_version")
        (prepare_analysis_report_dictionary (AnalysisPlugin.init pv sv) now).fst).isSome
        = true ↔ sv ≠ PyValue.none)
    ∧ (∀ kv ∈ (prepare_analysis_report_dictionary (AnalysisPlugin.init pv sv) now).fst,
        kv.fst = ("plugin_version") ∨ kv.fst = ("analysis_date")
        ∨ kv.fst = ("system_version"))
    ∧ (sv = PyValue.none →
        (prepare_analysis_report_dictionary (AnalysisPlugin.init pv sv) now).fst
          = [(("plugin_version"), pv), (("analysis_date"), PyValue.time now)]) := by
  cases sv <;>
    simp [prepare_analysis_report_dictionary, AnalysisPlugin.init, List.lookup]

/-- C3 (witness): the report of a plugin with version 1.0 and no system
version holds exactly the two base keys. -/
theorem report_envelope_keys_witness :
    (prepare_analysis_report_dictionary
        (AnalysisPlugin.init (PyValue.str ("1.0")) PyValue.none) 0).fst
      = [(("plugin_version"), PyValue.str ("1.0")), (("analysis_date"), PyValue.time 0)] :=
  (report_envelope_keys (PyValue.str ("1.0")) PyValue.none 0).2.2.2.2 rfl

/-- C4 (counterexample).  The claim asserts that for an AnalysisPluginFile
instance the capability queries for URL, IP, Domain and String all return
false; no String capability query exists on the class, so at the String
capability nothing returns false. -/
theorem file_only_string_query_cx :
    capabilityQuery pluginFileDemo Capability.string = none
    ∧ capabilityQuery pluginFileDemo Capability.string ≠ some (false, pluginFileDemo) :=
  ⟨rfl, fun h => Option.noConfusion h⟩

/-- C4 (amended).  For every AnalysisPluginFile instance, which declares only
the File capability, the capability queries for URL, IP and Domain return
false; a String capability query does not exist on the class. -/
theorem file_only_plugin_queries_false (pv sv : PyValue) :
    capabilityQuery (AnalysisPluginFile.init pv sv) Capability.url
        = some (false, AnalysisPluginFile.init pv sv)
    ∧ capabilityQuery (AnalysisPluginFile.init pv sv) Capability.ip
        = some (false, AnalysisPluginFile.init pv sv)
    ∧ capabilityQuery (AnalysisPluginFile.init pv sv) Capability.domain
        = some (false, AnalysisPluginFile.init pv sv)
    ∧ capabilityQuery (AnalysisPluginFile.init pv sv) Capability.string = none :=
  ⟨rfl, rfl, rfl, rfl⟩

/-- C7 (confirmed).  The base-contract operations, the four capability
queries and the report builder, leave the plugin_version and system_version
attributes of the object unchanged. -/
theorem base_ops_preserve_versions (p : Plugin) (now : Nat) :
    (can_analyze_file p).snd.plugin_version = p.plugin_version
    ∧ (can_analyze_file p).snd.system_version = p.system_version
    ∧ (can_analyze_url p).snd.plugin_version = p.plugin_version
    ∧ (can_analyze_url p).snd.system_version = p.system_version
    ∧ (can_analyze_ip p).snd.plugin_version = p.plugin_version
    ∧ (can_analyze_ip p).snd.system_version = p.system_version
    ∧ (can_analyze_domain p).snd.plugin_version = p.plugin_version
    ∧ (can_analyze_domain p).snd.system_version = p.system_version
    ∧ (prepare_analysis_report_dictionary p now).snd.plugin_version = p.plugin_version
    ∧ (prepare_analysis_report_dictionary p now).snd.system_version = p.system_version := by
  cases h : p.system_version <;>
    simp [can_analyze_file, can_analyze_url, can_analyze_ip, can_analyze_domain,
      prepare_analysis_report_dictionary, h]

/-- C8 (confirmed).  Wherever an analyze_* slot holds the un-overridden mixin
placeholder, the matching capability query (each of the four that exist)
returns true, yet invoking the operation raises NotImplementedError for
every input; the String mixin placeholder equally raises, though no String
query exists: a true capability query never guarantees a successful call. -/
theorem placeholder_true_query_raises (p : Plugin) (s : String) :
    (p.analyze_file = MethodImpl.placeholder →
        (can_analyze_file p).fst = true
        ∧ MethodImpl.invoke p.analyze_file s = Except.error PyErr.notImplementedError)
    ∧ (p.analyze_url = MethodImpl.placeholder →
        (can_analyze_url p).fst = true
        ∧ MethodImpl.invoke p.analyze_url s = Except.error PyErr.notImplementedError)
    ∧ (p.analyze_ip = MethodImpl.placeholder →
        (can_analyze_ip p).fst = true
        ∧ MethodImpl.invoke p.analyze_ip s = Except.error PyErr.notImplementedError)
    ∧ (p.analyze_domain = MethodImpl.placeholder →
        (can_analyze_domain p).fst = true
        ∧ MethodImpl.invoke p.analyze_domain s = Except.error PyErr.notImplementedError)
    ∧ (p.analyze_string = MethodImpl.placeholder →
        MethodImpl.invoke p.analyze_string s = Except.error PyErr.notImplementedError) := by
  refine ⟨fun h => ?_, fun h => ?_, fun h => ?_, fun h => ?_, fun h => ?_⟩ <;>
    simp [can_analyze_file, can_analyze_url, can_analyze_ip, can_analyze_domain,
      MethodImpl.hasattr, MethodImpl.callable, MethodImpl.invoke, h]

/-- C8 (witness): the AnalysisPluginFile instance inherits the file
placeholder as-is, its file query is true and the call raises. -/
theorem placeholder_true_query_raises_witness :
    (can_analyze_file pluginFileDemo).fst = true
    ∧ MethodImpl.invoke pluginFileDemo.analyze_file ("x")
        = Except.error PyErr.notImplementedError :=
  (placeholder_true_query_raises pluginFileDemo ("x")).1 rfl

/-- C9 (confirmed).  The report contains the system_version key exactly when
the stored system_version is not None; a value bound as None behaves as the
omitted Python default (no key), while falsy non-None values, the empty
string and the integer zero, are still written to the report. -/
theorem system_version_key_iff_not_none (pv sv : PyValue) (now : Nat) :
    (List.lookup ("system_version")
        (prepare_analysis_report_dictionary (AnalysisPlugin.init pv sv) now).fst
        ≠ none ↔ sv ≠ PyValue.none)
    ∧ List.lookup ("system_version")
        (prepare_analysis_report_dictionary (AnalysisPlugin.init pv (PyValue.str (""))) now).fst
        = some (PyValue.str (""))
    ∧ List.lookup ("system_version")
        (prepare_analysis_report_dictionary (AnalysisPlugin.init pv (PyValue.int 0)) now).fst
        = some (PyValue.int 0)
    ∧ List.lookup ("system_version")
        (prepare_analysis_report_dictionary (AnalysisPlugin.init pv PyValue.none) now).fst
        = none := by
  refine ⟨?_, ?_, ?_, ?_⟩
  · cases sv <;>
      simp [prepare_analysis_report_dictionary, AnalysisPlugin.init, List.lookup]
  · simp [prepare_analysis_report_dictionary, AnalysisPlugin.init, List.lookup]
  · simp [prepare_analysis_report_dictionary, AnalysisPlugin.init, List.lookup]
  · simp [prepare_analysis_report_dictionary, AnalysisPlugin.init, List.lookup]

/-- C9 (witness): concrete falsy system version, the empty string, is kept in
the report. -/
theorem system_version_key_iff_not_none_witness :
    List.lookup ("system_version")
        (prepare_analysis_report_dictionary
          (AnalysisPlugin.init (PyValue.str ("1.0")) (PyValue.str (""))) 0).fst
      = some (PyValue.str ("")) :=
  (system_version_key_iff_not_none (PyValue.str ("1.0")) (PyValue.str ("")) 0).2.1

/-- C5 (counterexample).  The claim allows a non-zero termination only for a
missing module or a resolution failure; with a module that resolves to the
AnalysisPluginFile class and a file argument, resolution succeeds and yet
the process terminates with an uncaught NotImplementedError instead of
exiting zero, because the client invoked the un-overridden placeholder. -/
theorem cli_crash_on_analysis_error_cx :
    (py_main (fun _ => LoadOutcome.loaded pluginFileDemo) argsFileDemo).snd
        = MainOutcome.uncaught PyErr.notImplementedError
    ∧ (py_main (fun _ => LoadOutcome.loaded pluginFileDemo) argsFileDemo).snd
        ≠ MainOutcome.exitCode 0 :=
  ⟨rfl, fun h => MainOutcome.noConfusion h⟩

/-- C5 (amended).  The client exits with code one when no analysis module is
specified; a module or class resolution failure propagates so the process
terminates non-zero; otherwise it exits with code zero provided the analysis
phase raises no exception, and an exception raised during analysis also
propagates, terminating the process non-zero. -/
theorem cli_exit_behavior (env : String → LoadOutcome) (args : Args) :
    (args.analysis_module = none → py_main env args = ([], MainOutcome.exitCode 1))
    ∧ (∀ name, args.analysis_module = some name → env name = LoadOutcome.importError →
        py_main env args = ([], MainOutcome.uncaught PyErr.importError))
    ∧ (∀ name, args.analysis_module = some name → env name = LoadOutcome.noAnalysisClass →
        py_main env args = ([], MainOutcome.uncaught PyErr.attributeError))
    ∧ (∀ name p, args.analysis_module = some name → env name = LoadOutcome.loaded p →
        ((py_analyze args p).snd = none → (py_main env args).snd = MainOutcome.exitCode 0)
        ∧ (∀ e, (py_analyze args p).snd = some e →
            (py_main env args).snd = MainOutcome.uncaught e)) := by
  refine ⟨?_, ?_, ?_, ?_⟩
  · intro h
    simp [py_main, py_load_analysis_class, h]
  · intro name h1 h2
    simp [py_main, py_load_analysis_class, h1, h2]
  · intro name h1 h2
    simp [py_main, py_load_analysis_class, h1, h2]
  · intro name p h1 h2
    constructor
    · intro h3
      rcases hpa : py_analyze args p with ⟨evs, r⟩
      rw [hpa] at h3
      simp at h3
      subst h3
      simp [py_main, py_load_analysis_class, h1, h2, hpa]
    · intro e h3
      rcases hpa : py_analyze args p with ⟨evs, r⟩
      rw [hpa] at h3
      simp at h3
      subst h3
      simp [py_main, py_load_analysis_class, h1, h2, hpa]

/-- C5 (witness): with no module named the client exits with code one. -/
theorem cli_exit_behavior_witness :
    py_main (fun _ => LoadOutcome.loaded pluginFileDemo)
        { analysis_module := none, file := none, url := none, ip := none, domain := none }
      = ([], MainOutcome.exitCode 1) :=
  (cli_exit_behavior (fun _ => LoadOutcome.loaded pluginFileDemo)
    { analysis_module := none, file := none, url := none, ip := none, domain := none }).1 rfl

/-- C6 (counterexample).  The claim promises, for each provided input, a
capability check followed by an invocation with a printed report or a skip
warning.  A file input provided as the empty string produces no event at all
(the truthiness guard of the source skips it); and when the capability is
true but the placeholder raises, the operation is invoked yet nothing is
printed, so neither branch of the claim holds there either. -/
theorem client_ignores_empty_input_cx :
    argsEmptyFileDemo.file = some ("")
    ∧ py_analyze argsEmptyFileDemo pluginFileDemo = ([], none)
    ∧ (py_analyze_file pluginFileDemo ("x")).fst
        = [Event.checkedCan Capability.file true, Event.logInfo Capability.file ("x"),
            Event.invoked Capability.file ("x")]
    ∧ (py_analyze_file pluginFileDemo ("x")).snd = Except.error PyErr.notImplementedError :=
  ⟨rfl, rfl, rfl, rfl⟩

/-- C6 (amended).  For each provided non-empty input the client first checks
the matching capability query; if it is true it invokes the matching analyze
operation and prints the result when the call returns normally, while an
exception propagates with nothing printed; if it is false it emits a skip
warning without invoking the operation (and prints the None result).  An
input provided as the empty string is skipped entirely. -/
theorem client_checks_then_dispatches (p : Plugin) (s : String) (hs : s.isEmpty = false) :
    handlesInput Capability.file (can_analyze_file p).fst p.analyze_file s
        (runInput p (some s) py_analyze_file Capability.file)
    ∧ handlesInput Capability.url (can_analyze_url p).fst p.analyze_url s
        (runInput p (some s) py_analyze_url Capability.url)
    ∧ handlesInput Capability.ip (can_analyze_ip p).fst p.analyze_ip s
        (runInput p (some s) py_analyze_ip Capability.ip)
    ∧ handlesInput Capability.domain (can_analyze_domain p).fst p.analyze_domain s
        (runInput p (some s) py_analyze_domain Capability.domain) := by
  refine ⟨?_, ?_, ?_, ?_⟩ <;> rw [runInput_some _ _ _ _ hs] <;> exact handles_core _ _ _ _

/-- C6 (witness): the file block of the client on a concrete plugin and a
non-empty path satisfies the per-input contract. -/
theorem client_checks_then_dispatches_witness :
    handlesInput Capability.file (can_analyze_file pluginFileDemo).fst
        pluginFileDemo.analyze_file ("x")
        (runInput pluginFileDemo (some ("x")) py_analyze_file Capability.file) :=
  (client_checks_then_dispatches pluginFileDemo ("x") rfl).1

/-- C10 (confirmed).  The trace of the driver decomposes into four blocks in
the fixed order file, url, ip, domain; each result is printed directly after
its block produced it; the argument parser registers no flag for string
analysis and the driver can emit no string-tagged event, even though the
String mixin with its callable placeholder is part of the library. -/
theorem cli_fixed_order_no_string_flag :
    (∀ args p, ∃ l1 l2 l3 l4,
        (py_analyze args p).fst = l1 ++ l2 ++ l3 ++ l4
        ∧ (∀ e ∈ l1, evCap e = Capability.file) ∧ (∀ e ∈ l2, evCap e = Capability.url)
        ∧ (∀ e ∈ l3, evCap e = Capability.ip) ∧ (∀ e ∈ l4, evCap e = Capability.domain))
    ∧ (∀ p (s : String)
        (f : Plugin → String → List Event × Except PyErr (Option PyDict))
        (c : Capability) r, s.isEmpty = false → (f p s).snd = Except.ok r →
        runInput p (some s) f c = ((f p s).fst ++ [printEv c r], none))
    ∧ ("--string") ∉ argparserFlags
    ∧ (∀ args p e, e ∈ (py_analyze args p).fst → evCap e ≠ Capability.string)
    ∧ MethodImpl.callable StringAnalysisMixin.analyze_string = true := by
  refine ⟨py_analyze_blocks, ?_, by decide, ?_, rfl⟩
  · intro p s f c r hs hr
    rw [runInput_some p s f c hs]
    rcases hf : f p s with ⟨evs, res⟩
    rw [hf] at hr
    simp at hr
    subst hr
    rfl
  · intro args p e he hc
    obtain ⟨l1, l2, l3, l4, hdec, h1, h2, h3, h4⟩ := py_analyze_blocks args p
    rw [hdec] at he
    have hor : evCap e = Capability.file ∨ evCap e = Capability.url
        ∨ evCap e = Capability.ip ∨ evCap e = Capability.domain := by
      simp only [List.mem_append] at he
      rcases he with ((h | h) | h) | h
      · exact Or.inl (h1 e h)
      · exact Or.inr (Or.inl (h2 e h))
      · exact Or.inr (Or.inr (Or.inl (h3 e h)))
      · exact Or.inr (Or.inr (Or.inr (h4 e h)))
    rcases hor with h | h | h | h <;> rw [hc] at h <;> exact Capability.noConfusion h

/-- C10 (witness): the print of the file block directly follows the block,
here for the base plugin whose skip branch returns None. -/
theorem cli_fixed_order_no_string_flag_witness :
    runInput pluginBaseDemo (some ("x")) py_analyze_file Capability.file
      = ((py_analyze_file pluginBaseDemo ("x")).fst ++ [printEv Capability.file none], none) :=
  cli_fixed_order_no_string_flag.2.1 pluginBaseDemo ("x") py_analyze_file
    Capability.file none rfl rfl
